import Mathlib

/-!
Verification of the TerminAI API backend (`src/main.py`).

The service is a single-file FastAPI app with two routes:
* `POST /generate-command` — verifies the `x-api-key` header against the
  configured secret, builds a prompt from the request's query and context,
  calls the Groq chat-completion service, and returns the trimmed first
  choice as `command`;
* `GET /health` — returns a fixed liveness payload.

This file shallowly embeds that code: the context dict becomes an
association list, the outbound Groq call becomes a function parameter
returning `Except` (exception text on failure), and HTTP exceptions become
an error type carrying status code and detail.  `generate_command` also
returns a flag recording whether the outbound call was made, so that
"never reaches the outbound call" is expressible.
-/

/-- A Python dict with string keys and string values, as used for the
request `context` field.  Lookup follows `dict.get`. -/
abbrev Ctx := List (String × String)

/-- `ctx.get(k)` — the value bound to `k`, if present. -/
def dictGet (ctx : Ctx) (k : String) : Option String :=
  List.lookup k ctx

/-- Python truthiness of an optional string: `None` and the empty string
are falsy, every other string is truthy. -/
def pyTruthy : Option String → Bool
  | none => false
  | some s => s ≠ ""

/-- `fastapi.HTTPException`: a status code plus a detail message. -/
structure HTTPException where
  status_code : Nat
  detail : String
  deriving DecidableEq, Repr

/-- `verify_api_key` from `src/main.py` (lines 60-69): a missing or falsy
header yields 401 "API key is required"; a header different from the
configured `API_KEY` yields 401 "Invalid API key"; otherwise the key is
returned onward. -/
def verify_api_key (x_api_key : Option String) (API_KEY : String) :
    Except HTTPException String :=
  if !(pyTruthy x_api_key) then
    Except.error ⟨401, "API key is required"⟩
  else if x_api_key.getD "" ≠ API_KEY then
    Except.error ⟨401, "Invalid API key"⟩
  else
    Except.ok (x_api_key.getD "")

/-- `CommandRequest`: a query string plus a context dict (default `{}`). -/
structure CommandRequest where
  query : String
  context : Ctx := []

/-- `CommandResponse`: the generated command and an optional explanation
(never populated by the code). -/
structure CommandResponse where
  command : String
  explanation : Option String := none
  deriving DecidableEq, Repr

/-- One message of a chat completion choice (`choice.message.content`). -/
structure ChatMessage where
  content : String

/-- One completion choice. -/
structure Choice where
  message : ChatMessage

/-- The upstream chat-completion result: a list of choices. -/
structure ChatCompletion where
  choices : List Choice

/-- The outbound Groq client: takes the role-tagged messages and either
returns a completion or raises (modelled as `Except.error` carrying the
exception text `str(e)`). -/
abbrev GroqClient := List (String × String) → Except String ChatCompletion

/-- Python `str.strip()`: remove leading and trailing whitespace.
Implemented over the character list so it evaluates by `rfl`/`decide`. -/
def pyStrip (s : String) : String :=
  ⟨((s.data.dropWhile Char.isWhitespace).reverse.dropWhile Char.isWhitespace).reverse⟩

/-- The triple-quoted `system_prompt` literal of `generate_command`,
including its leading newline and 8-space indentation. -/
def system_prompt : String :=
  "\n        You are TerminAI, an AI assistant specialized in terminal commands and operations.\n        Provide clear, concise, and accurate responses to user queries.\n        For command suggestions, output ONLY the exact command the user should run.\n        Do not include explanations, comments, or markdown formatting.\n        "

/-- The `context_prompt` accumulation of `generate_command`
(lines 135-141): start from the header line and append one `Label: value`
line for each of `os`, `shell`, `current_dir` whose value is truthy. -/
def context_prompt (ctx : Ctx) : String :=
  let cp := "Context information:\n"
  let cp := if pyTruthy (dictGet ctx "os") then
      cp ++ ("Operating System: " ++ (dictGet ctx "os").getD "" ++ "\n")
    else cp
  let cp := if pyTruthy (dictGet ctx "shell") then
      cp ++ ("Shell: " ++ (dictGet ctx "shell").getD "" ++ "\n")
    else cp
  let cp := if pyTruthy (dictGet ctx "current_dir") then
      cp ++ ("Current Directory: " ++ (dictGet ctx "current_dir").getD "" ++ "\n")
    else cp
  cp

/-- The `user_prompt` f-string of `generate_command` (line 144). -/
def user_prompt (ctx : Ctx) (query : String) : String :=
  context_prompt ctx ++ "\nUser Query: " ++ query ++
    "\n\nPlease provide the exact terminal command for this query:"

/-- The `messages` list passed to `groq_client.chat.completions.create`
(lines 150-153), as (role, content) pairs. -/
def groqMessages (request : CommandRequest) : List (String × String) :=
  [("system", system_prompt), ("user", user_prompt request.context request.query)]

/-- The `POST /generate-command` handler (lines 105-168).  The first
component is the HTTP outcome; the second records whether the outbound
Groq call was made.  Any exception inside the `try` block is caught and
re-raised as 500 with detail `"Error generating command: " ++ str(e)`;
an empty `choices` list makes `choices[0]` raise the Python `IndexError`
whose text is `"list index out of range"`. -/
def generate_command (API_KEY : String) (x_api_key : Option String)
    (request : CommandRequest) (groq_client : GroqClient) :
    Except HTTPException CommandResponse × Bool :=
  match verify_api_key x_api_key API_KEY with
  | Except.error e => (Except.error e, false)
  | Except.ok _ =>
    match groq_client (groqMessages request) with
    | Except.error e =>
        (Except.error ⟨500, "Error generating command: " ++ e⟩, true)
    | Except.ok chat_completion =>
        match chat_completion.choices with
        | [] =>
            (Except.error ⟨500, "Error generating command: list index out of range"⟩, true)
        | c :: _ =>
            (Except.ok { command := pyStrip c.message.content }, true)

/-- The `GET /health` handler (lines 170-173): HTTP status and payload. -/
def health_check : Nat × List (String × String) :=
  (200, [("status", "healthy"), ("service", "TerminAI API")])

/-! ### Spec-side definitions

These follow the spec's words, for the refinement claims comparing the
spec's description of prompt construction with the code's. -/

/-- The recognized context keys with their labels, in the spec's fixed
order. -/
def specRecognizedKeys : List (String × String) :=
  [("os", "Operating System: "), ("shell", "Shell: "), ("current_dir", "Current Directory: ")]

/-- Spec-side context section: one `Label: value` line per recognized key
that is present with a truthy value, in the fixed order, omitting
falsy/absent keys. -/
def specContextLines (ctx : Ctx) : List String :=
  specRecognizedKeys.filterMap fun kl =>
    match dictGet ctx kl.1 with
    | some v => if v = "" then none else some (kl.2 ++ v ++ "\n")
    | none => none

/-- Spec-side user prompt: the "Context information" header, the rendered
recognized-key lines, the literal query, and the closing instruction. -/
def spec_user_prompt (ctx : Ctx) (query : String) : String :=
  "Context information:\n" ++ String.join (specContextLines ctx) ++
    "\nUser Query: " ++ query ++
    "\n\nPlease provide the exact terminal command for this query:"

/-! ### Helper lemmas -/

theorem isPrefixOf_self_append (l t : List Char) : l.isPrefixOf (l ++ t) = true := by
  induction l with
  | nil => simp [List.isPrefixOf]
  | cons a as ih => simp [List.isPrefixOf, ih]

/-! ### Claims -/

/-- C3: a request to the command endpoint that does not present the
credential header gets HTTP 401 with detail "API key is required", and the
outbound completion call is never made. -/
theorem missing_key_short_circuits (API_KEY : String)
    (request : CommandRequest) (groq_client : GroqClient) :
    generate_command API_KEY none request groq_client =
      (Except.error ⟨401, "API key is required"⟩, false) := rfl

/-- C8: the health-check endpoint always returns HTTP 200 with the fixed
payload, independent of auth or upstream state (it takes no input and is a
total constant). -/
theorem health_check_fixed_payload :
    health_check = (200, [("status", "healthy"), ("service", "TerminAI API")]) := rfl

/-- C9: presenting the `x-api-key` header with an empty-string value is
treated the same as an absent credential: 401 "API key is required", not
the invalid-credential error. -/
theorem empty_key_treated_as_missing (API_KEY : String) :
    verify_api_key (some "") API_KEY = Except.error ⟨401, "API key is required"⟩ := rfl

/-- C4 counterexample: the empty-string credential differs from the
configured secret, yet the code answers "API key is required" rather than
the claimed authentication-rejected "Invalid API key". -/
theorem invalid_key_claim_counterexample :
    (("" : String) ≠ "secret-key") ∧
    verify_api_key (some "") "secret-key" = Except.error ⟨401, "API key is required"⟩ ∧
    (("API key is required" : String) ≠ "Invalid API key") :=
  ⟨by decide, rfl, by decide⟩

/-- C4 (amended): for a request presenting a NON-EMPTY credential, a
mismatch with the configured secret yields 401 "Invalid API key", and a
match allows the request, returning the credential onward. -/
theorem nonempty_mismatched_key_rejected (key API_KEY : String) (hk : key ≠ "") :
    verify_api_key (some key) API_KEY =
      if key = API_KEY then Except.ok key
      else Except.error ⟨401, "Invalid API key"⟩ := by
  by_cases h : key = API_KEY
  · subst h
    simp [verify_api_key, pyTruthy, hk]
  · simp [verify_api_key, pyTruthy, hk, h]

/-- Witness for C4's amended theorem at concrete inputs. -/
theorem nonempty_mismatched_key_rejected_witness :
    verify_api_key (some "wrong") "secret" = Except.error ⟨401, "Invalid API key"⟩ := by
  have h := nonempty_mismatched_key_rejected "wrong" "secret" (by decide)
  rw [if_neg (by decide)] at h
  exact h

/-- C2: for an authenticated request whose upstream call succeeds with a
non-empty choice list, the response is 200 with `command` the first
choice's message text stripped of surrounding whitespace, and
`explanation` left unset. -/
theorem success_returns_stripped_first_choice (API_KEY : String)
    (request : CommandRequest) (groq_client : GroqClient)
    (choice : Choice) (rest : List Choice)
    (hkey : API_KEY ≠ "")
    (hok : groq_client (groqMessages request) = Except.ok ⟨choice :: rest⟩) :
    generate_command API_KEY (some API_KEY) request groq_client =
      (Except.ok { command := pyStrip choice.message.content, explanation := none }, true) := by
  simp [generate_command, verify_api_key, pyTruthy, hkey, hok]

/-- Witness for C2 at the spec's example: upstream text
`"  find . -type f -size +10M | sort -rh  "` yields exactly
`command = "find . -type f -size +10M | sort -rh"` with no explanation. -/
theorem success_returns_stripped_first_choice_witness :
    generate_command "secret" (some "secret")
      { query := "How do I find large files in the current directory?",
        context := [("os", "Darwin 22.1.0"), ("shell", "/bin/zsh"), ("current_dir", "~/projects")] }
      (fun _ => Except.ok ⟨[⟨⟨"  find . -type f -size +10M | sort -rh  "⟩⟩]⟩) =
      (Except.ok { command := "find . -type f -size +10M | sort -rh", explanation := none }, true) := by
  exact success_returns_stripped_first_choice "secret" _ _
    ⟨⟨"  find . -type f -size +10M | sort -rh  "⟩⟩ [] (by decide) rfl

/-- C5: for an authenticated request, any exception in the outbound call
(modelled as `Except.error e`) and any malformed success (empty `choices`,
where `choices[0]` raises `IndexError: list index out of range`) both
collapse to the single generic 500 error whose detail is
`"Error generating command: " ++` the exception's text. -/
theorem exceptions_map_to_500 (API_KEY : String)
    (request : CommandRequest) (groq_client : GroqClient)
    (hkey : API_KEY ≠ "") :
    (∀ e : String, groq_client (groqMessages request) = Except.error e →
      generate_command API_KEY (some API_KEY) request groq_client =
        (Except.error ⟨500, "Error generating command: " ++ e⟩, true)) ∧
    (∀ cc : ChatCompletion, groq_client (groqMessages request) = Except.ok cc →
      cc.choices = [] →
      generate_command API_KEY (some API_KEY) request groq_client =
        (Except.error ⟨500, "Error generating command: list index out of range"⟩, true)) := by
  constructor
  · intro e he
    simp [generate_command, verify_api_key, pyTruthy, hkey, he]
  · intro cc hcc hnil
    simp [generate_command, verify_api_key, pyTruthy, hkey, hcc, hnil]

/-- Witness for C5: a stub upstream raising "Connection error." yields the
generic 500 whose message includes the stub's error text. -/
theorem exceptions_map_to_500_witness :
    generate_command "secret" (some "secret") { query := "q" }
      (fun _ => Except.error "Connection error.") =
      (Except.error ⟨500, "Error generating command: Connection error."⟩, true) := by
  exact (exceptions_map_to_500 "secret" { query := "q" }
    (fun _ => Except.error "Connection error.") (by decide)).1 "Connection error." rfl

/-- C6: two requests agreeing on the query and on the recognized context
keys `os`, `shell`, `current_dir` produce identical message lists for the
model, whatever other context keys they carry. -/
theorem unrecognized_context_not_surfaced (q : String) (ctx1 ctx2 : Ctx)
    (hos : dictGet ctx1 "os" = dictGet ctx2 "os")
    (hsh : dictGet ctx1 "shell" = dictGet ctx2 "shell")
    (hcd : dictGet ctx1 "current_dir" = dictGet ctx2 "current_dir") :
    groqMessages { query := q, context := ctx1 } =
      groqMessages { query := q, context := ctx2 } := by
  simp [groqMessages, user_prompt, context_prompt, hos, hsh, hcd]

/-- Witness for C6: contexts differing only in unrecognized keys
(`session_id` vs `user_token`) give identical model messages. -/
theorem unrecognized_context_not_surfaced_witness :
    groqMessages { query := "list files", context := [("os", "Linux"), ("session_id", "abc123")] } =
      groqMessages { query := "list files", context := [("os", "Linux"), ("user_token", "zzz")] } :=
  unrecognized_context_not_surfaced "list files" _ _ rfl rfl rfl

/-- The spec-side match on a context key's value agrees with the
truthiness test the code performs. -/
theorem specEntry_eq (o : Option String) (label : String) :
    (match o with
     | some v => if v = "" then none else some (label ++ v ++ "\n")
     | none => none) =
    (if pyTruthy o then some (label ++ o.getD "" ++ "\n") else none) := by
  cases o with
  | none => simp [pyTruthy]
  | some v => by_cases hv : v = "" <;> simp [pyTruthy, hv]

/-- The code's `context_prompt` accumulation equals the header followed by
the spec-side rendered lines. -/
theorem context_prompt_eq_spec (ctx : Ctx) :
    context_prompt ctx = "Context information:\n" ++ String.join (specContextLines ctx) := by
  unfold context_prompt specContextLines specRecognizedKeys
  simp only [List.filterMap_cons, List.filterMap_nil]
  rw [specEntry_eq (dictGet ctx "os"), specEntry_eq (dictGet ctx "shell"),
    specEntry_eq (dictGet ctx "current_dir")]
  by_cases h1 : pyTruthy (dictGet ctx "os") = true <;>
    by_cases h2 : pyTruthy (dictGet ctx "shell") = true <;>
    by_cases h3 : pyTruthy (dictGet ctx "current_dir") = true <;>
    simp [h1, h2, h3, String.join, String.append_assoc, String.append_empty, String.empty_append]

/-- C1: for every validated request, the constructed user prompt is
exactly the spec's rendering: the context header, the recognized keys that
are present and truthy as `Label: value` lines in the fixed order
os, shell, current_dir (falsy/absent keys omitted), then the literal query
and the closing instruction sentence. -/
theorem prompt_renders_recognized_context (ctx : Ctx) (query : String) :
    user_prompt ctx query = spec_user_prompt ctx query := by
  unfold user_prompt spec_user_prompt
  rw [context_prompt_eq_spec]

/-- C10: the constructed user prompt always begins with the
"Context information:" header line, even when no recognized context key is
present (the header is appended unconditionally). -/
theorem prompt_always_begins_with_context_header (ctx : Ctx) (query : String) :
    "Context information:\n".data.isPrefixOf (user_prompt ctx query).data = true := by
  unfold user_prompt
  rw [context_prompt_eq_spec]
  simp only [String.data_append, List.append_assoc]
  exact isPrefixOf_self_append _ _

/-! ### Line analysis for the Shell-line claim

A "line" of a string is a maximal newline-free segment; a string
"contains a `Shell:` line" when some line starts with `Shell:` — i.e.
`Shell:` occurs at the very beginning or right after a newline. -/

/-- Does the list contain a newline immediately followed by `c`? -/
def nlThen (c : Char) : List Char → Bool
  | x :: y :: rest => (x == '\n' && y == c) || nlThen c (y :: rest)
  | _ => false

/-- Does `p` occur right after some newline of the list? -/
def lineStartAux (p : List Char) : List Char → Bool
  | [] => false
  | x :: rest => (x == '\n' && p.isPrefixOf rest) || lineStartAux p rest

/-- Does some line of `l` start with `p`? -/
def hasLine (p l : List Char) : Bool :=
  p.isPrefixOf l || lineStartAux p l

theorem nlThen_cons2 (c x y : Char) (r : List Char) :
    nlThen c (x :: y :: r) = ((x == '\n' && y == c) || nlThen c (y :: r)) := rfl

theorem nlThen_tail_false {c x : Char} {l : List Char}
    (h : nlThen c (x :: l) = false) : nlThen c l = false := by
  cases l with
  | nil => rfl
  | cons y r =>
    rw [nlThen_cons2] at h
    exact (Bool.or_eq_false_iff.mp h).2

theorem nlThen_of_no_newline (c : Char) (l : List Char) (h : '\n' ∉ l) :
    nlThen c l = false := by
  induction l with
  | nil => rfl
  | cons x r ih =>
    cases r with
    | nil => rfl
    | cons y r2 =>
      rw [nlThen_cons2]
      have hx : (x == '\n') = false := by
        simp only [beq_eq_false_iff_ne, ne_eq]
        intro he
        exact h (by simp [he])
      rw [hx, Bool.false_and, Bool.false_or]
      exact ih fun hm => h (List.mem_cons_of_mem _ hm)

theorem nlThen_append (c : Char) (a b : List Char) :
    nlThen c a = false → nlThen c b = false →
    (a.getLast? ≠ some '\n' ∨ b.head? ≠ some c) →
    nlThen c (a ++ b) = false := by
  induction a with
  | nil =>
    intro _ hb _
    simpa using hb
  | cons x r ih =>
    intro ha hb hj
    cases r with
    | nil =>
      cases b with
      | nil => rfl
      | cons y b2 =>
        simp only [List.cons_append, List.nil_append]
        rw [nlThen_cons2]
        have h1 : (x == '\n' && y == c) = false := by
          rcases hj with hj | hj
          · have hx : x ≠ '\n' := by simpa using hj
            simp [hx]
          · have hy : y ≠ c := by simpa using hj
            simp [hy]
        rw [h1, Bool.false_or]
        exact hb
    | cons x2 r2 =>
      have ha1 : (x == '\n' && x2 == c) = false := by
        rw [nlThen_cons2] at ha
        exact (Bool.or_eq_false_iff.mp ha).1
      have ha2 : nlThen c (x2 :: r2) = false := by
        rw [nlThen_cons2] at ha
        exact (Bool.or_eq_false_iff.mp ha).2
      have hj2 : (x2 :: r2).getLast? ≠ some '\n' ∨ b.head? ≠ some c := by
        rcases hj with hj | hj
        · left
          rwa [List.getLast?_cons_cons] at hj
        · right
          exact hj
      have hrec := ih ha2 hb hj2
      simp only [List.cons_append] at hrec ⊢
      rw [nlThen_cons2, ha1, Bool.false_or]
      exact hrec

theorem lineStartAux_cons (p : List Char) (x : Char) (r : List Char) :
    lineStartAux p (x :: r) = ((x == '\n' && p.isPrefixOf r) || lineStartAux p r) := rfl

theorem lineStartAux_of_nlThen (c : Char) (p : List Char) (l : List Char)
    (h : nlThen c l = false) : lineStartAux (c :: p) l = false := by
  induction l with
  | nil => rfl
  | cons x r ih =>
    rw [lineStartAux_cons]
    rw [ih (nlThen_tail_false h), Bool.or_false]
    cases r with
    | nil => simp [List.isPrefixOf]
    | cons y r2 =>
      by_cases hx : x = '\n'
      · subst hx
        rw [nlThen_cons2] at h
        have h1 := (Bool.or_eq_false_iff.mp h).1
        have hy : (y == c) = false := by simpa using h1
        have hcy : (c == y) = false := by
          simp only [beq_eq_false_iff_ne, ne_eq] at hy ⊢
          exact fun he => hy he.symm
        simp [List.isPrefixOf, hcy]
      · simp [hx]

theorem ne_some_of_eq {α : Type} {o : Option α} {x y : α} (h : o = some x) (hxy : x ≠ y) :
    o ≠ some y := by
  subst h
  simp [hxy]

theorem head_append_ne_of_ne {α : Type} (y : α) (a b : List α)
    (ha : a.head? ≠ some y) (hb : b.head? ≠ some y) : (a ++ b).head? ≠ some y := by
  cases a with
  | nil => simpa using hb
  | cons x l => simpa using ha

/-- An optional context line `Label: value\n` never has `c` as its first
character when the label does not start with it. -/
theorem optLine_head_ne (c x : Char) (hx : x ≠ c) (b : Prop) [Decidable b] (label v : String)
    (hlab : label.data.head? = some x) :
    ((if b then label ++ v ++ "\n" else "" : String)).data.head? ≠ some c := by
  split
  · have hh : (label ++ v ++ "\n").data.head? = some x := by
      rw [String.data_append, String.data_append]
      cases hl : label.data with
      | nil => rw [hl] at hlab; cases hlab
      | cons a as =>
        rw [hl] at hlab
        simp only [List.head?_cons, Option.some.injEq] at hlab
        simp [hlab]
    exact ne_some_of_eq hh hx
  · simp

/-- An optional context line `Label: value\n` contains no
newline-then-`c` when the label has none, the label does not end in a
newline, and the value is newline-free. -/
theorem nlThen_optLine (c : Char) (hc : c ≠ '\n') (b : Prop) [Decidable b] (label v : String)
    (hlab : nlThen c label.data = false)
    (hlast : label.data.getLast? ≠ some '\n')
    (hv : '\n' ∉ v.data) :
    nlThen c ((if b then label ++ v ++ "\n" else "" : String)).data = false := by
  split
  · rw [String.data_append, String.data_append]
    apply nlThen_append
    · apply nlThen_append
      · exact hlab
      · exact nlThen_of_no_newline c v.data hv
      · exact Or.inl hlast
    · rfl
    · right
      exact ne_some_of_eq rfl (fun he => hc he.symm)
  · rfl

set_option maxRecDepth 10000 in
/-- C7 counterexample: a context that omits the `shell` key but whose `os`
value embeds a newline makes the constructed prompt contain a line
starting with `Shell:`, refuting the claim as universally stated. -/
theorem shell_line_claim_counterexample :
    dictGet [("os", "Darwin\nShell: /bin/zsh")] "shell" = none ∧
    hasLine "Shell:".data
      (user_prompt [("os", "Darwin\nShell: /bin/zsh")] "q").data = true :=
  ⟨rfl, by decide⟩

set_option maxRecDepth 2000 in
/-- C7 (amended): for every validated request whose context omits the
`shell` key, PROVIDED the query and the `os` and `current_dir` context
values contain no newline character, the constructed prompt contains no
line starting with `Shell:`. -/
theorem no_shell_line_when_omitted (ctx : Ctx) (query : String)
    (hsh : dictGet ctx "shell" = none)
    (hq : '\n' ∉ query.data)
    (hos : '\n' ∉ ((dictGet ctx "os").getD "").data)
    (hcd : '\n' ∉ ((dictGet ctx "current_dir").getD "").data) :
    hasLine "Shell:".data (user_prompt ctx query).data = false := by
  have hprompt : user_prompt ctx query =
      "Context information:\n" ++
        ((if pyTruthy (dictGet ctx "os") then
            "Operating System: " ++ (dictGet ctx "os").getD "" ++ "\n" else "") ++
          ((if pyTruthy (dictGet ctx "current_dir") then
              "Current Directory: " ++ (dictGet ctx "current_dir").getD "" ++ "\n" else "") ++
            ("\nUser Query: " ++ (query ++ "\n\nPlease provide the exact terminal command for this query:")))) := by
    have hshell : pyTruthy (dictGet ctx "shell") = false := by rw [hsh]; rfl
    unfold user_prompt context_prompt
    by_cases h1 : pyTruthy (dictGet ctx "os") = true <;>
      by_cases h3 : pyTruthy (dictGet ctx "current_dir") = true <;>
      (simp [h1, h3, hshell, String.append_assoc, String.append_empty]; try rfl)
  rw [hprompt]
  unfold hasLine
  refine Bool.or_eq_false_iff.mpr ⟨?_, ?_⟩
  · rfl
  · rw [show ("Shell:".data : List Char) = 'S' :: "hell:".data from rfl]
    apply lineStartAux_of_nlThen
    simp only [String.data_append]
    apply nlThen_append
    · decide
    · apply nlThen_append
      · exact nlThen_optLine 'S' (by decide) _ "Operating System: " _ (by decide) (by decide) hos
      · apply nlThen_append
        · exact nlThen_optLine 'S' (by decide) _ "Current Directory: " _ (by decide) (by decide) hcd
        · apply nlThen_append
          · decide
          · apply nlThen_append
            · exact nlThen_of_no_newline _ _ hq
            · decide
            · exact Or.inr (ne_some_of_eq rfl (by decide))
          · exact Or.inl (ne_some_of_eq rfl (by decide))
        · exact Or.inr (ne_some_of_eq rfl (by decide))
      · exact Or.inr (head_append_ne_of_ne _ _ _
          (optLine_head_ne 'S' 'C' (by decide) _ "Current Directory: " _ rfl)
          (ne_some_of_eq rfl (by decide)))
    · exact Or.inr (head_append_ne_of_ne _ _ _
        (optLine_head_ne 'S' 'O' (by decide) _ "Operating System: " _ rfl)
        (head_append_ne_of_ne _ _ _
          (optLine_head_ne 'S' 'C' (by decide) _ "Current Directory: " _ rfl)
          (ne_some_of_eq rfl (by decide))))

set_option maxRecDepth 10000 in
/-- Witness for C7's amended theorem: a concrete context without `shell`
and newline-free values yields a prompt with no `Shell:` line. -/
theorem no_shell_line_when_omitted_witness :
    hasLine "Shell:".data
      (user_prompt [("os", "Darwin 22.1.0"), ("current_dir", "~/projects")] "list large files").data = false :=
  no_shell_line_when_omitted _ _ rfl (by decide) (by decide) (by decide)
